import Mathlib

/-!
Shallow embedding of the eligibility-checking service in `main.py`.

Marks dictionaries (`Dict[str, float]`) are modelled as association lists
`List (String × ℚ)` with distinct keys; numeric scores are rationals.
Fallible Python code (division by zero on an empty mapping, `KeyError` on a
missing course) is modelled with `Option`: a `none` result marks the raised
exception.  All definitions are translated from the source file; the rule
table is the literal `COURSE_RULES` dictionary.
-/

set_option autoImplicit false

namespace FastapiApp

/-- `Qualification` model (lines 31-40 of `main.py`): an exam name and a
qualified flag.  The validator normalises the exam to one of
`JEE`, `NEET`, `NONE`; that fact is carried by `Student.valid` below. -/
structure Qualification where
  exam : String
  qualified : Bool
deriving DecidableEq, Repr

/-- `Student` model (lines 42-90 of `main.py`).  The `marks` dictionary is an
association list from subject name to score. -/
structure Student where
  name : String
  age : Int
  gender : String
  marks : List (String × ℚ)
  qualification : Qualification
  desired_course : String
deriving DecidableEq, Repr

/-- A course rule: required subjects, cutoff percentage, optional required
exam (the tuple values of `COURSE_RULES`, lines 94-115). -/
structure Rule where
  req_subjs : List String
  cutoff : ℚ
  req_exam : Option String
deriving DecidableEq, Repr

/-- The `COURSE_RULES` table (lines 94-115 of `main.py`), in definition
order.  Subject sets are written as duplicate-free lists. -/
def COURSE_RULES : List (String × Rule) :=
  [ ("CSE",            ⟨["Physics", "Chemistry", "Mathematics"], 75, some "JEE"⟩),
    ("ME",             ⟨["Physics", "Chemistry", "Mathematics"], 70, some "JEE"⟩),
    ("EE",             ⟨["Physics", "Chemistry", "Mathematics"], 70, some "JEE"⟩),
    ("CIVIL",          ⟨["Physics", "Chemistry", "Mathematics"], 65, some "JEE"⟩),
    ("ECE",            ⟨["Physics", "Chemistry", "Mathematics"], 70, some "JEE"⟩),
    ("MBBS",           ⟨["Physics", "Chemistry", "Biology"],     85, some "NEET"⟩),
    ("BDS",            ⟨["Physics", "Chemistry", "Biology"],     80, some "NEET"⟩),
    ("BAMS",           ⟨["Physics", "Chemistry", "Biology"],     75, some "NEET"⟩),
    ("BHMS",           ⟨["Physics", "Chemistry", "Biology"],     75, some "NEET"⟩),
    ("BPT",            ⟨["Physics", "Chemistry", "Biology"],     70, some "NEET"⟩),
    ("BCOM",           ⟨["Accountancy", "Business Studies", "Economics"], 0, none⟩),
    ("BBA",            ⟨["Accountancy", "Business Studies", "Economics"], 0, none⟩),
    ("BBM",            ⟨["Accountancy", "Business Studies", "Economics"], 0, none⟩),
    ("CA",             ⟨["Accountancy", "Business Studies", "Economics"], 0, none⟩),
    ("BA_HISTORY",     ⟨["History", "Political Science", "Geography"],    0, none⟩),
    ("BA_PSYCHOLOGY",  ⟨["Psychology", "Sociology", "English"],           0, none⟩),
    ("BA_SOCIETY",     ⟨["Sociology", "Political Science", "History"],    0, none⟩),
    ("BA_POLITICALSCI",⟨["Political Science", "History", "Geography"],    0, none⟩),
    ("BA_ENGLISH",     ⟨["English", "History", "Political Science"],      0, none⟩) ]

/-- Dictionary lookup `student.marks[s]` on the association list. -/
def lookupMark (marks : List (String × ℚ)) (subj : String) : Option ℚ :=
  (marks.find? (fun p => p.1 == subj)).map Prod.snd

/-- Lookup `COURSE_RULES[course]`; `none` models the `KeyError`. -/
def lookupRule (course : String) : Option Rule :=
  (COURSE_RULES.find? (fun p => p.1 == course)).map Prod.snd

/-- `calculate_percentage` (lines 117-119): `sum(marks.values()) / len(marks)`.
`none` models the `ZeroDivisionError` on an empty mapping. -/
def calculate_percentage (marks : List (String × ℚ)) : Option ℚ :=
  if marks.length = 0 then none
  else some ((marks.map Prod.snd).sum / (marks.length : ℚ))

/-- The dict comprehension `{s: student.marks[s] for s in req_subjs}`
(lines 136 and 152), keeping only the subjects actually present. -/
def restrict (marks : List (String × ℚ)) (subjs : List String) :
    List (String × ℚ) :=
  subjs.filterMap (fun subj => (lookupMark marks subj).map (fun v => (subj, v)))

/-- The exam test of lines 127-129 and 146: pass when no exam is required, or
when the student's exam matches and the qualified flag is set. -/
def examGate (req_exam : Option String) (q : Qualification) : Bool :=
  match req_exam with
  | none => true
  | some e => q.exam == e && q.qualified

/-- `req_subjs.issubset(set(student.marks.keys()))` (lines 132 and 149). -/
def subsetGate (subjs : List String) (marks : List (String × ℚ)) : Bool :=
  subjs.all (fun subj => (lookupMark marks subj).isSome)

/-- `check_course_eligibility` (lines 121-140): the three sequential gates
for the student's desired course.  `none` models a raised exception
(unknown course, or empty mapping handed to `calculate_percentage`). -/
def check_course_eligibility (student : Student) : Option Bool :=
  match lookupRule student.desired_course with
  | none => none
  | some r =>
    if examGate r.req_exam student.qualification = false then some false
    else if subsetGate r.req_subjs student.marks = false then some false
    else
      match calculate_percentage (restrict student.marks r.req_subjs) with
      | none => none
      | some pct =>
        if 0 < r.cutoff ∧ pct < r.cutoff then some false else some true

/-- The loop body of `recommend_alternatives` (lines 143-156), recursing over
the remaining table entries; a `none` from `calculate_percentage` aborts the
whole scan, as the raised exception would. -/
def recommendLoop (student : Student) : List (String × Rule) → Option (List String)
  | [] => some []
  | (crs, r) :: rest =>
    if examGate r.req_exam student.qualification = false then
      recommendLoop student rest
    else if subsetGate r.req_subjs student.marks = false then
      recommendLoop student rest
    else
      match calculate_percentage (restrict student.marks r.req_subjs) with
      | none => none
      | some pct =>
        if 0 < r.cutoff ∧ pct < r.cutoff then recommendLoop student rest
        else (recommendLoop student rest).map (fun recs => crs :: recs)

/-- `recommend_alternatives` (lines 142-156): scan every table entry in
definition order and collect the courses whose three gates all pass. -/
def recommend_alternatives (student : Student) : Option (List String) :=
  recommendLoop student COURSE_RULES

/-- Round-half-to-even to an integer, the behaviour of Python's `round`. -/
def roundHalfEven (q : ℚ) : ℤ :=
  if q - ⌊q⌋ < 1/2 then ⌊q⌋
  else if 1/2 < q - ⌊q⌋ then ⌊q⌋ + 1
  else if Even ⌊q⌋ then ⌊q⌋ else ⌊q⌋ + 1

/-- `round(x, 2)`: round to two decimal places. -/
def round2 (q : ℚ) : ℚ := (roundHalfEven (q * 100) : ℚ) / 100

/-- The response dictionary assembled by the handler (lines 178-184).
`student_id` stands for the generated UUID; `recommended_courses = none`
models the absent key. -/
structure Response where
  student_id : String
  eligible : Bool
  percentage : ℚ
  recommended_courses : Option (List String)
deriving DecidableEq, Repr

/-- The `/check-eligibility` handler `check_eligibility` (lines 160-190),
with the logging side effects dropped and the generated UUID passed in as
`new_id`.  `none` models an exception escaping the handler. -/
def check_eligibility (new_id : String) (student : Student) : Option Response :=
  match calculate_percentage student.marks with
  | none => none
  | some overall_pct =>
    match check_course_eligibility student with
    | none => none
    | some eligible =>
      if eligible then
        some ⟨new_id, eligible, round2 overall_pct, none⟩
      else
        match recommend_alternatives student with
        | none => none
        | some recommended =>
          some ⟨new_id, eligible, round2 overall_pct, some recommended⟩

/-- Python's `str.strip()`: drop whitespace from both ends. -/
def stripStr (v : String) : String :=
  ⟨((v.data.dropWhile (fun c => c.isWhitespace)).reverse.dropWhile
      (fun c => c.isWhitespace)).reverse⟩

/-- The `name` validator `name_letters_spaces` (lines 52-57): accept exactly
the strings fully matching `[A-Za-z ]+` (non-empty, ASCII letters and spaces
only), and store the stripped value. -/
def name_letters_spaces (v : String) : Option String :=
  if v ≠ "" ∧ v.data.all (fun c => c.isAlpha || c == ' ') then some (stripStr v)
  else none

/-- The conditions the `Student` validators (lines 52-90) establish on a
stored, validated record: name made of letters and spaces, age in range,
gender and exam in their enumerations, marks in `[0, 100]` with at least
three distinct-keyed entries, and a desired course from the rule table. -/
def Student.valid (s : Student) : Bool :=
  s.name.data.all (fun c => c.isAlpha || c == ' ') &&
  (17 ≤ s.age && s.age ≤ 25) &&
  (s.gender == "Male" || s.gender == "Female" || s.gender == "Other") &&
  s.marks.all (fun p => 0 ≤ p.2 && p.2 ≤ 100) &&
  3 ≤ s.marks.length &&
  decide (s.marks.map Prod.fst).Nodup &&
  (s.qualification.exam == "JEE" || s.qualification.exam == "NEET" ||
    s.qualification.exam == "NONE") &&
  COURSE_RULES.any (fun p => p.1 == s.desired_course)

/-- Mean of the values of an association list, as a total function: the
value `calculate_percentage` returns whenever it does not fail. -/
def meanTotal (marks : List (String × ℚ)) : ℚ :=
  (marks.map Prod.snd).sum / (marks.length : ℚ)

/-- The student of the spec's third scenario: marks of 60 in Physics,
Chemistry and Mathematics, qualified in JEE, desiring CSE. -/
def student60 : Student :=
  ⟨"Asha Rao", 18, "Female",
    [("Physics", 60), ("Chemistry", 60), ("Mathematics", 60)],
    ⟨"JEE", true⟩, "CSE"⟩

/-- A student sitting exactly at the CSE cutoff of 75. -/
def student75 : Student :=
  ⟨"Ravi Kumar", 19, "Male",
    [("Physics", 75), ("Chemistry", 75), ("Mathematics", 75)],
    ⟨"JEE", true⟩, "CSE"⟩

/-- A commerce student with all-zero marks, desiring BCOM (cutoff 0). -/
def studentZero : Student :=
  ⟨"Ben Lee", 20, "Other",
    [("Accountancy", 0), ("Business Studies", 0), ("Economics", 0)],
    ⟨"NONE", false⟩, "BCOM"⟩

example : student60.valid = true := by decide
example : student75.valid = true := by decide
example : studentZero.valid = true := by decide

example : check_course_eligibility student60 = some false := by
  simp [check_course_eligibility, lookupRule, COURSE_RULES, examGate, subsetGate,
    lookupMark, calculate_percentage, restrict, student60]
  norm_num

example : check_course_eligibility student75 = some true := by
  simp [check_course_eligibility, lookupRule, COURSE_RULES, examGate, subsetGate,
    lookupMark, calculate_percentage, restrict, student75]
  norm_num

example : check_course_eligibility studentZero = some true := by
  simp [check_course_eligibility, lookupRule, COURSE_RULES, examGate, subsetGate,
    lookupMark, calculate_percentage, restrict, studentZero]

example : recommend_alternatives student60 = some [] := by
  simp [recommend_alternatives, recommendLoop, COURSE_RULES, examGate, subsetGate,
    lookupMark, calculate_percentage, restrict, student60]
  norm_num

/-! ### Helper lemmas -/

/-- A mark lookup succeeds exactly when the subject is a key of the marks
dictionary. -/
lemma lookupMark_isSome_iff (marks : List (String × ℚ)) (x : String) :
    (lookupMark marks x).isSome = true ↔ x ∈ marks.map Prod.fst := by
  induction marks with
  | nil => simp [lookupMark]
  | cons p rest ih =>
    by_cases h : p.1 = x
    · simp [lookupMark, List.find?, h]
    · have hb : (p.1 == x) = false := by simp [h]
      simp only [lookupMark, List.find?, hb, List.map_cons, List.mem_cons]
      rw [lookupMark] at ih
      simp [ih, h, Ne.symm h]

/-- `calculate_percentage` fails exactly on the empty mapping. -/
lemma calculate_percentage_none_iff (marks : List (String × ℚ)) :
    calculate_percentage marks = none ↔ marks = [] := by
  cases marks <;> simp [calculate_percentage]

/-- On a non-empty mapping, `calculate_percentage` returns the mean. -/
lemma calculate_percentage_some (marks : List (String × ℚ)) (h : marks ≠ []) :
    calculate_percentage marks = some (meanTotal marks) := by
  cases marks with
  | nil => exact absurd rfl h
  | cons p rest => simp [calculate_percentage, meanTotal]

/-- When the subject gate passes, the restricted dictionary has one entry
per required subject. -/
lemma restrict_length (marks : List (String × ℚ)) (subjs : List String)
    (h : subsetGate subjs marks = true) :
    (restrict marks subjs).length = subjs.length := by
  induction subjs with
  | nil => simp [restrict]
  | cons x rest ih =>
    simp only [subsetGate, List.all_cons, Bool.and_eq_true] at h
    obtain ⟨hx, hrest⟩ := h
    obtain ⟨v, hv⟩ := Option.isSome_iff_exists.mp hx
    simp only [restrict, List.filterMap_cons, hv, Option.map_some']
    simpa [restrict, subsetGate] using ih hrest

/-- The three-gate test on one rule, written as a single boolean: the value
`check_course_eligibility` computes when no exception interferes. -/
def checkRuleB (student : Student) (r : Rule) : Bool :=
  examGate r.req_exam student.qualification &&
  subsetGate r.req_subjs student.marks &&
  !(decide (0 < r.cutoff) &&
    decide (meanTotal (restrict student.marks r.req_subjs) < r.cutoff))

/-- With a known rule whose subject set is non-empty,
`check_course_eligibility` returns the three-gate boolean. -/
lemma check_course_eligibility_eq (s : Student) (r : Rule)
    (hr : lookupRule s.desired_course = some r) (hne : r.req_subjs ≠ []) :
    check_course_eligibility s = some (checkRuleB s r) := by
  unfold check_course_eligibility
  rw [hr]
  cases hE : examGate r.req_exam s.qualification with
  | false => simp [hE, checkRuleB]
  | true =>
    cases hS : subsetGate r.req_subjs s.marks with
    | false => simp [hE, hS, checkRuleB]
    | true =>
      have hlen : (restrict s.marks r.req_subjs).length = r.req_subjs.length :=
        restrict_length s.marks r.req_subjs hS
      have hrne : restrict s.marks r.req_subjs ≠ [] := by
        intro hnil
        rw [hnil] at hlen
        exact hne (List.length_eq_zero.mp hlen.symm)
      have hcp : calculate_percentage (restrict s.marks r.req_subjs) =
          some (meanTotal (restrict s.marks r.req_subjs)) :=
        calculate_percentage_some _ hrne
      by_cases hc : 0 < r.cutoff ∧ meanTotal (restrict s.marks r.req_subjs) < r.cutoff
      · simp [hE, hS, hcp, checkRuleB, hc.1, hc.2, if_pos hc]
      · rcases not_and_or.mp hc with hx | hx <;>
          simp [hE, hS, hcp, checkRuleB, hx, if_neg hc]

/-- The recommendation loop collects, in order, exactly the table entries
whose three-gate boolean holds, provided every rule it sees has a non-empty
subject set. -/
lemma recommendLoop_eq (s : Student) (l : List (String × Rule))
    (h : ∀ p ∈ l, p.2.req_subjs ≠ []) :
    recommendLoop s l = some ((l.filter (fun p => checkRuleB s p.2)).map Prod.fst) := by
  induction l with
  | nil => simp [recommendLoop]
  | cons p rest ih =>
    have hp : p.2.req_subjs ≠ [] := h p (List.mem_cons_self p rest)
    have hrest : ∀ q ∈ rest, q.2.req_subjs ≠ [] :=
      fun q hq => h q (List.mem_cons_of_mem p hq)
    obtain ⟨crs, r⟩ := p
    simp only [recommendLoop]
    cases hE : examGate r.req_exam s.qualification with
    | false => simp [hE, ih hrest, checkRuleB, List.filter_cons]
    | true =>
      cases hS : subsetGate r.req_subjs s.marks with
      | false => simp [hE, hS, ih hrest, checkRuleB, List.filter_cons]
      | true =>
        have hlen : (restrict s.marks r.req_subjs).length = r.req_subjs.length :=
          restrict_length s.marks r.req_subjs hS
        have hrne : restrict s.marks r.req_subjs ≠ [] := by
          intro hnil
          rw [hnil] at hlen
          exact hp (List.length_eq_zero.mp hlen.symm)
        have hcp : calculate_percentage (restrict s.marks r.req_subjs) =
            some (meanTotal (restrict s.marks r.req_subjs)) :=
          calculate_percentage_some _ hrne
        by_cases hc : 0 < r.cutoff ∧ meanTotal (restrict s.marks r.req_subjs) < r.cutoff
        · simp [hE, hS, hcp, ih hrest, List.filter_cons, checkRuleB,
            hc.1, hc.2, if_pos hc]
        · rcases not_and_or.mp hc with hx | hx <;>
            simp [hE, hS, hcp, ih hrest, List.filter_cons, checkRuleB, hx, if_neg hc]

/-- Table fact: the 19 course codes are pairwise distinct. -/
lemma COURSE_RULES_keys_nodup : (COURSE_RULES.map Prod.fst).Nodup := by decide

/-- Table fact: every rule requires at least one subject. -/
lemma COURSE_RULES_subjs_ne : ∀ p ∈ COURSE_RULES, p.2.req_subjs ≠ [] := by decide

/-- A successful rule lookup returns an entry of the table. -/
lemma lookupRule_mem {c : String} {r : Rule}
    (h : lookupRule c = some r) : (c, r) ∈ COURSE_RULES := by
  unfold lookupRule at h
  obtain ⟨p, hfind, hsnd⟩ := Option.map_eq_some'.mp h
  have hmem := List.mem_of_find?_eq_some hfind
  have hkey : p.1 = c := by
    have := List.find?_some hfind
    simpa using this
  have : p = (c, r) := by
    obtain ⟨a, b⟩ := p
    simp only at hkey hsnd
    rw [hkey, hsnd]
  rwa [this] at hmem

/-- In a list with pairwise-distinct keys, `find?` on a key returns the
member carrying that key. -/
lemma find_key_of_mem {α : Type} (c : String) (r : α) :
    ∀ l : List (String × α), (l.map Prod.fst).Nodup → (c, r) ∈ l →
      l.find? (fun p => p.1 == c) = some (c, r) := by
  intro l
  induction l with
  | nil => intro _ h; exact absurd h (List.not_mem_nil _)
  | cons q rest ih =>
    intro hnd h
    simp only [List.map_cons, List.nodup_cons] at hnd
    rcases List.mem_cons.mp h with hq | hq
    · rw [← hq]
      simp [List.find?]
    · have hc : c ∈ rest.map Prod.fst := List.mem_map.mpr ⟨(c, r), hq, rfl⟩
      have hne : (q.1 == c) = false := by
        simp only [beq_eq_false_iff_ne, ne_eq]
        intro he
        exact hnd.1 (he ▸ hc)
      simp only [List.find?, hne]
      exact ih hnd.2 hq

/-- Membership in the table determines the lookup (keys are distinct). -/
lemma mem_lookupRule {c : String} {r : Rule}
    (h : (c, r) ∈ COURSE_RULES) : lookupRule c = some r := by
  unfold lookupRule
  rw [find_key_of_mem c r COURSE_RULES COURSE_RULES_keys_nodup h]
  rfl

/-- In a list with pairwise-distinct keys, a key determines its value. -/
lemma key_unique {α : Type} {c : String} {r1 r2 : α} (l : List (String × α))
    (hnd : (l.map Prod.fst).Nodup) (h1 : (c, r1) ∈ l) (h2 : (c, r2) ∈ l) :
    r1 = r2 := by
  have e1 := find_key_of_mem c r1 l hnd h1
  have e2 := find_key_of_mem c r2 l hnd h2
  rw [e1] at e2
  exact congrArg Prod.snd (Option.some_inj.mp e2)

/-- A validated student's desired course is a key of the rule table. -/
lemma valid_lookupRule {s : Student} (hv : s.valid = true) :
    ∃ r, (s.desired_course, r) ∈ COURSE_RULES ∧
      lookupRule s.desired_course = some r := by
  have hany : COURSE_RULES.any (fun p => p.1 == s.desired_course) = true := by
    simp only [Student.valid, Bool.and_eq_true] at hv
    exact hv.2
  obtain ⟨p, hp, hpc⟩ := List.any_eq_true.mp hany
  have hpe : p = (s.desired_course, p.2) := by
    obtain ⟨a, b⟩ := p
    simp only [beq_iff_eq] at hpc
    rw [hpc]
  rw [hpe] at hp
  exact ⟨p.2, hp, mem_lookupRule hp⟩

/-- The exam gate as the specification states it. -/
lemma examGate_eq_true_iff (re : Option String) (q : Qualification) :
    examGate re q = true ↔
      ∀ e, re = some e → q.exam = e ∧ q.qualified = true := by
  cases re <;> simp [examGate]

/-- The subject gate is the subset condition on mark keys. -/
lemma subsetGate_iff (subjs : List String) (marks : List (String × ℚ)) :
    subsetGate subjs marks = true ↔
      ∀ x ∈ subjs, x ∈ marks.map Prod.fst := by
  simp [subsetGate, List.all_eq_true, lookupMark_isSome_iff]

/-- The cutoff gate boolean holds exactly when a positive cutoff forces the
mean to reach it. -/
lemma cutoffB_iff (c m : ℚ) :
    (!(decide (0 < c) && decide (m < c))) = true ↔ (0 < c → c ≤ m) := by
  by_cases h : 0 < c <;> simp [h, not_lt]

/-- Full characterisation of the handler on a validated student: it returns
a response built from the three-gate boolean of the desired course's rule,
the rounded overall mean, and the filtered recommendation list. -/
lemma check_eligibility_eq (new_id : String) (s : Student) (hv : s.valid = true) :
    ∃ r, (s.desired_course, r) ∈ COURSE_RULES ∧
      check_eligibility new_id s =
        some ⟨new_id, checkRuleB s r, round2 (meanTotal s.marks),
          if checkRuleB s r then none
          else some ((COURSE_RULES.filter (fun p => checkRuleB s p.2)).map
            Prod.fst)⟩ := by
  obtain ⟨r, hmem, hr⟩ := valid_lookupRule hv
  have hmne : s.marks ≠ [] := by
    simp only [Student.valid, Bool.and_eq_true] at hv
    intro hnil
    have h3 := hv.1.1.1.2
    rw [hnil] at h3
    simp at h3
  have hcp : calculate_percentage s.marks = some (meanTotal s.marks) :=
    calculate_percentage_some _ hmne
  have hchk : check_course_eligibility s = some (checkRuleB s r) :=
    check_course_eligibility_eq s r hr (COURSE_RULES_subjs_ne _ hmem)
  have hrec : recommend_alternatives s =
      some ((COURSE_RULES.filter (fun p => checkRuleB s p.2)).map Prod.fst) :=
    recommendLoop_eq s COURSE_RULES COURSE_RULES_subjs_ne
  refine ⟨r, hmem, ?_⟩
  unfold check_eligibility
  rw [hcp, hchk]
  cases hb : checkRuleB s r with
  | true => simp
  | false => simp [hrec]

/-! ### Claim theorems -/

/-- C1: for every validated student, `check_course_eligibility` returns true
iff the three gates of the desired course's rule all pass: (1) any required
exam is matched with the qualified flag set, (2) the required subjects are
all keys of the marks mapping, (3) a positive cutoff is reached by the mean
of the marks over exactly the required subjects. -/
theorem eligibility_iff_three_gates (s : Student) (r : Rule)
    (hv : s.valid = true) (hr : lookupRule s.desired_course = some r) :
    check_course_eligibility s = some true ↔
      ((∀ e, r.req_exam = some e →
          s.qualification.exam = e ∧ s.qualification.qualified = true) ∧
       (∀ subj ∈ r.req_subjs, subj ∈ s.marks.map Prod.fst) ∧
       (0 < r.cutoff →
          r.cutoff ≤ meanTotal (restrict s.marks r.req_subjs))) := by
  have hne := COURSE_RULES_subjs_ne _ (lookupRule_mem hr)
  rw [check_course_eligibility_eq s r hr hne, Option.some_inj]
  simp only [checkRuleB, Bool.and_eq_true, examGate_eq_true_iff, subsetGate_iff,
    cutoffB_iff]
  tauto

/-- C1 witness: a student with 75 in Physics, Chemistry and Mathematics,
qualified in JEE, is eligible for CSE. -/
theorem eligibility_iff_three_gates_witness :
    check_course_eligibility student75 = some true := by
  refine (eligibility_iff_three_gates student75
      ⟨["Physics", "Chemistry", "Mathematics"], 75, some "JEE"⟩
      (by decide) (by decide)).mpr ⟨?_, ?_, ?_⟩
  · intro e he
    cases he
    exact ⟨rfl, rfl⟩
  · decide
  · intro h0
    simp [meanTotal, restrict, lookupMark, student75]
    norm_num

/-- C3: for a validated student whose exam and subject gates pass and whose
course has a positive cutoff, a required-subject mean strictly below the
cutoff yields false and a mean at or above the cutoff yields true. -/
theorem cutoff_gate_boundary (s : Student) (r : Rule)
    (hv : s.valid = true) (hr : lookupRule s.desired_course = some r)
    (hex : examGate r.req_exam s.qualification = true)
    (hsub : subsetGate r.req_subjs s.marks = true)
    (hpos : 0 < r.cutoff) :
    (meanTotal (restrict s.marks r.req_subjs) < r.cutoff →
      check_course_eligibility s = some false) ∧
    (r.cutoff ≤ meanTotal (restrict s.marks r.req_subjs) →
      check_course_eligibility s = some true) := by
  have hne := COURSE_RULES_subjs_ne _ (lookupRule_mem hr)
  rw [check_course_eligibility_eq s r hr hne]
  constructor
  · intro hlt
    simp [checkRuleB, hex, hsub, hpos, hlt]
  · intro hge
    simp [checkRuleB, hex, hsub, not_lt.mpr hge]

/-- C3 witness: the mean 60 is below the CSE cutoff 75, so the student with
straight 60s is ineligible. -/
theorem cutoff_gate_boundary_witness :
    check_course_eligibility student60 = some false := by
  refine (cutoff_gate_boundary student60
      ⟨["Physics", "Chemistry", "Mathematics"], 75, some "JEE"⟩
      (by decide) (by decide) (by decide) (by decide) (by decide)).1 ?_
  simp [meanTotal, restrict, lookupMark, student60]
  norm_num

/-- C4: for a validated student whose course rule has cutoff 0, the cutoff
gate imposes nothing: once the exam and subject gates pass, the check
returns true whatever the required-subject mean is. -/
theorem cutoff_zero_always_passes (s : Student) (r : Rule)
    (hv : s.valid = true) (hr : lookupRule s.desired_course = some r)
    (h0 : r.cutoff = 0)
    (hex : examGate r.req_exam s.qualification = true)
    (hsub : subsetGate r.req_subjs s.marks = true) :
    check_course_eligibility s = some true := by
  have hne := COURSE_RULES_subjs_ne _ (lookupRule_mem hr)
  rw [check_course_eligibility_eq s r hr hne]
  simp [checkRuleB, hex, hsub, h0]

/-- C4 witness: a commerce student with all-zero marks is still eligible for
BCOM, whose cutoff is 0. -/
theorem cutoff_zero_always_passes_witness :
    check_course_eligibility studentZero = some true :=
  cutoff_zero_always_passes studentZero
    ⟨["Accountancy", "Business Studies", "Economics"], 0, none⟩
    (by decide) (by decide) rfl (by decide) (by decide)

/-- C2: for every validated student, the recommendation scan succeeds, and a
table course appears in its list exactly when the primary three-gate check
would declare a student with that desired course eligible: the per-course
check of the scan is extensionally the primary check. -/
theorem recommendation_matches_eligibility (s : Student) (c : String) (r : Rule)
    (hv : s.valid = true) (hc : (c, r) ∈ COURSE_RULES) :
    (recommend_alternatives s).isSome = true ∧
    ∀ recs, recommend_alternatives s = some recs →
      (c ∈ recs ↔
        check_course_eligibility { s with desired_course := c } = some true) := by
  have hrec : recommend_alternatives s =
      some ((COURSE_RULES.filter (fun p => checkRuleB s p.2)).map Prod.fst) :=
    recommendLoop_eq s COURSE_RULES COURSE_RULES_subjs_ne
  refine ⟨by rw [hrec]; rfl, ?_⟩
  intro recs h
  rw [hrec, Option.some_inj] at h
  subst h
  have hne := COURSE_RULES_subjs_ne _ hc
  have hchk : check_course_eligibility { s with desired_course := c } =
      some (checkRuleB s r) := by
    have hr' : lookupRule ({ s with desired_course := c }).desired_course =
        some r := mem_lookupRule hc
    exact check_course_eligibility_eq _ r hr' hne
  rw [hchk]
  constructor
  · intro hmem
    obtain ⟨p, hp, hpc⟩ := List.mem_map.mp hmem
    have hpf := List.mem_filter.mp hp
    have hpe : p = (c, p.2) := by
      obtain ⟨a, b⟩ := p
      simp only at hpc
      rw [hpc]
    have hsame : p.2 = r :=
      key_unique COURSE_RULES COURSE_RULES_keys_nodup (hpe ▸ hpf.1) hc
    rw [Option.some_inj, ← hsame]
    exact hpf.2
  · intro hsome
    have hb : checkRuleB s r = true := Option.some_inj.mp hsome
    exact List.mem_map.mpr ⟨(c, r), List.mem_filter.mpr ⟨hc, hb⟩, rfl⟩

/-- C2 witness: for the straight-60 JEE student the scan returns the empty
list, and CIVIL is absent exactly because the primary check with CIVIL as
desired course fails. -/
theorem recommendation_matches_eligibility_witness :
    (recommend_alternatives student60).isSome = true ∧
    ("CIVIL" ∈ ([] : List String) ↔
      check_course_eligibility { student60 with desired_course := "CIVIL" } =
        some true) := by
  have h := recommendation_matches_eligibility student60 "CIVIL"
    ⟨["Physics", "Chemistry", "Mathematics"], 65, some "JEE"⟩
    (by decide) (by decide)
  refine ⟨h.1, h.2 [] ?_⟩
  simp [recommend_alternatives, recommendLoop, COURSE_RULES, examGate, subsetGate,
    lookupMark, calculate_percentage, restrict, student60]
  norm_num

/-- C10: a validated student whose primary eligibility check is false never
finds their own desired course in the recommendation list, because the scan
re-runs the identical failed check on it. -/
theorem desired_course_never_recommended (s : Student)
    (hv : s.valid = true)
    (hfail : check_course_eligibility s = some false) :
    ∀ recs, recommend_alternatives s = some recs →
      s.desired_course ∉ recs := by
  obtain ⟨r, hmem, hr⟩ := valid_lookupRule hv
  have hne := COURSE_RULES_subjs_ne _ hmem
  have hchk := check_course_eligibility_eq s r hr hne
  rw [hchk, Option.some_inj] at hfail
  have hrec : recommend_alternatives s =
      some ((COURSE_RULES.filter (fun p => checkRuleB s p.2)).map Prod.fst) :=
    recommendLoop_eq s COURSE_RULES COURSE_RULES_subjs_ne
  intro recs h hmem'
  rw [hrec, Option.some_inj] at h
  subst h
  obtain ⟨p, hp, hpc⟩ := List.mem_map.mp hmem'
  have hpf := List.mem_filter.mp hp
  have hpe : p = (s.desired_course, p.2) := by
    obtain ⟨a, b⟩ := p
    simp only at hpc
    rw [hpc]
  have hsame : p.2 = r :=
    key_unique COURSE_RULES COURSE_RULES_keys_nodup (hpe ▸ hpf.1) hmem
  rw [hsame] at hpf
  rw [hfail] at hpf
  exact Bool.false_ne_true hpf.2

/-- C10 witness: the straight-60 CSE student fails the primary check and CSE
is indeed absent from the (empty) recommendation list. -/
theorem desired_course_never_recommended_witness :
    student60.desired_course ∉ ([] : List String) := by
  refine desired_course_never_recommended student60 (by decide) ?_ [] ?_
  · simp [check_course_eligibility, lookupRule, COURSE_RULES, examGate, subsetGate,
      lookupMark, calculate_percentage, restrict, student60]
    norm_num
  · simp [recommend_alternatives, recommendLoop, COURSE_RULES, examGate, subsetGate,
      lookupMark, calculate_percentage, restrict, student60]
    norm_num

/-- C5: for every validated student, the handler succeeds and the
`percentage` field of its response is the arithmetic mean of all submitted
subject marks — not just the required subjects — rounded to two decimal
places. -/
theorem response_percentage_all_marks (new_id : String) (s : Student)
    (hv : s.valid = true) :
    (check_eligibility new_id s).isSome = true ∧
    ∀ resp, check_eligibility new_id s = some resp →
      resp.percentage =
        round2 ((s.marks.map Prod.snd).sum / (s.marks.length : ℚ)) := by
  obtain ⟨r, hmem, heq⟩ := check_eligibility_eq new_id s hv
  refine ⟨by rw [heq]; rfl, ?_⟩
  intro resp h
  rw [heq, Option.some_inj] at h
  rw [← h]
  rfl

/-- C5 witness: for the straight-60 student the response percentage is the
rounded mean of all three marks. -/
theorem response_percentage_all_marks_witness :
    (check_eligibility "sid" student60).isSome = true ∧
    (Response.mk "sid" false 60 (some [])).percentage =
      round2 ((student60.marks.map Prod.snd).sum /
        (student60.marks.length : ℚ)) := by
  have h := response_percentage_all_marks "sid" student60 (by decide)
  refine ⟨h.1, h.2 (Response.mk "sid" false 60 (some [])) ?_⟩
  simp [check_eligibility, check_course_eligibility, recommend_alternatives,
    recommendLoop, lookupRule, COURSE_RULES, examGate, subsetGate, lookupMark,
    calculate_percentage, restrict, student60, round2, roundHalfEven]
  norm_num

/-- C6: for every validated student, the handler succeeds and its response
carries a `recommended_courses` list exactly when the `eligible` field is
false; when eligible, no list is present. -/
theorem recommended_key_iff_ineligible (new_id : String) (s : Student)
    (hv : s.valid = true) :
    (check_eligibility new_id s).isSome = true ∧
    ∀ resp, check_eligibility new_id s = some resp →
      (resp.recommended_courses.isSome = true ↔ resp.eligible = false) := by
  obtain ⟨r, hmem, heq⟩ := check_eligibility_eq new_id s hv
  refine ⟨by rw [heq]; rfl, ?_⟩
  intro resp h
  rw [heq, Option.some_inj] at h
  rw [← h]
  cases hb : checkRuleB s r <;> simp [hb]

/-- C6 witness: the straight-60 student is ineligible and the response does
carry a (here empty) recommendation list. -/
theorem recommended_key_iff_ineligible_witness :
    (check_eligibility "sid" student60).isSome = true ∧
    ((Response.mk "sid" false 60 (some [])).recommended_courses.isSome = true ↔
      (Response.mk "sid" false 60 (some [])).eligible = false) := by
  have h := recommended_key_iff_ineligible "sid" student60 (by decide)
  refine ⟨h.1, h.2 (Response.mk "sid" false 60 (some [])) ?_⟩
  simp [check_eligibility, check_course_eligibility, recommend_alternatives,
    recommendLoop, lookupRule, COURSE_RULES, examGate, subsetGate, lookupMark,
    calculate_percentage, restrict, student60, round2, roundHalfEven]
  norm_num

/-- C7: `calculate_percentage` fails exactly on the empty mapping; every
rule requires at least one subject; and on a validated student neither the
eligibility check nor the recommendation scan can hit the failure, because
the subject gate runs before the cutoff gate. -/
theorem division_by_zero_unreachable :
    (∀ marks : List (String × ℚ),
      calculate_percentage marks = none ↔ marks = []) ∧
    (∀ p ∈ COURSE_RULES, p.2.req_subjs ≠ []) ∧
    (∀ s : Student, s.valid = true →
      (check_course_eligibility s).isSome = true ∧
      (recommend_alternatives s).isSome = true) := by
  refine ⟨calculate_percentage_none_iff, COURSE_RULES_subjs_ne, ?_⟩
  intro s hv
  obtain ⟨r, hmem, hr⟩ := valid_lookupRule hv
  have hchk := check_course_eligibility_eq s r hr (COURSE_RULES_subjs_ne _ hmem)
  have hrec : recommend_alternatives s =
      some ((COURSE_RULES.filter (fun p => checkRuleB s p.2)).map Prod.fst) :=
    recommendLoop_eq s COURSE_RULES COURSE_RULES_subjs_ne
  rw [hchk, hrec]
  exact ⟨rfl, rfl⟩

/-- C7 witness: the failure shows on the empty mapping, and the straight-60
student's check and scan both return a value. -/
theorem division_by_zero_unreachable_witness :
    (calculate_percentage [] = none) ∧
    (check_course_eligibility student60).isSome = true ∧
    (recommend_alternatives student60).isSome = true :=
  ⟨(division_by_zero_unreachable.1 []).mpr rfl,
    division_by_zero_unreachable.2.2 student60 (by decide)⟩

/-- C8 counterexample: for the scenario student (marks of 60 in Physics,
Chemistry and Mathematics, qualified in JEE, desiring CSE), the
recommendation list is empty — CIVIL is not in it, since the mean 60 is
below CIVIL's cutoff 65. -/
theorem scenario60_civil_not_recommended :
    recommend_alternatives student60 = some [] ∧
    "CIVIL" ∉ ([] : List String) := by
  refine ⟨?_, by simp⟩
  simp [recommend_alternatives, recommendLoop, COURSE_RULES, examGate, subsetGate,
    lookupMark, calculate_percentage, restrict, student60]
  norm_num

/-- C8 amended: for the scenario student the response has `eligible = false`
and an empty `recommended_courses` list — no course at all, CIVIL included,
passes its gates with a mean of 60. -/
theorem scenario60_response :
    check_eligibility "sid60" student60 =
      some (Response.mk "sid60" false 60 (some [])) := by
  simp [check_eligibility, check_course_eligibility, recommend_alternatives,
    recommendLoop, lookupRule, COURSE_RULES, examGate, subsetGate, lookupMark,
    calculate_percentage, restrict, student60, round2, roundHalfEven]
  norm_num

/-- C9 counterexample: the all-spaces name is accepted by the validator and
stored as the empty string. -/
theorem all_spaces_name_accepted :
    name_letters_spaces "   " = some "" ∧ ("" : String).length = 0 := by
  constructor
  · decide
  · rfl

/-- C9 amended: the validator accepts exactly the non-empty strings made of
letters and spaces, and stores the trimmed input — which may itself be
empty, when the input is all spaces. -/
theorem name_validation_amended (v : String) :
    ((name_letters_spaces v).isSome = true ↔
      (v ≠ "" ∧ ∀ c ∈ v.data, c.isAlpha = true ∨ c = ' ')) ∧
    (∀ w, name_letters_spaces v = some w → w = stripStr v) := by
  have hcond : (v ≠ "" ∧ v.data.all (fun c => c.isAlpha || c == ' ') = true) ↔
      (v ≠ "" ∧ ∀ c ∈ v.data, c.isAlpha = true ∨ c = ' ') := by
    simp only [List.all_eq_true, Bool.or_eq_true, beq_iff_eq]
  constructor
  · by_cases hb : v ≠ "" ∧ v.data.all (fun c => c.isAlpha || c == ' ') = true
    · unfold name_letters_spaces
      rw [if_pos hb]
      simp only [Option.isSome_some, true_iff]
      exact hcond.mp hb
    · unfold name_letters_spaces
      rw [if_neg hb]
      simp only [Option.isSome_none, Bool.false_eq_true, false_iff]
      exact fun hx => hb (hcond.mpr hx)
  · intro w hw
    unfold name_letters_spaces at hw
    by_cases hb : v ≠ "" ∧ v.data.all (fun c => c.isAlpha || c == ' ') = true
    · rw [if_pos hb, Option.some_inj] at hw
      exact hw.symm
    · rw [if_neg hb] at hw
      exact absurd hw (Option.noConfusion)

/-- C9 amended witness: a name with surrounding spaces is accepted and the
stored value is its trimmed form. -/
theorem name_validation_amended_witness :
    (name_letters_spaces " Ann ").isSome = true ∧
    "Ann" = stripStr " Ann " := by
  constructor
  · exact (name_validation_amended " Ann ").1.mpr (by decide)
  · exact (name_validation_amended " Ann ").2 "Ann" (by decide)

end FastapiApp
